import Mathlib

/-!
Shallow embedding of `src/emacs/qdb.py` (the qdb debugger REPL client).

The client side consists of:
* a message codec (`QdbRepl.fmt_msg` plus the `json.loads`/field-access
  performed by the reader),
* a command builder (the `QdbRepl.do_*` methods and
  `QdbRepl.parse_break_arg`),
* an event dispatcher (`ServerPrinter`).

JSON values are modelled by the inductive type `JVal`.  `json.dumps` and
`json.loads` are mutually inverse on the JSON trees this program produces,
so encoding is modelled at the level of JSON values (the envelope tree)
rather than serialized strings: `fmt_msg` returns the envelope `JVal`, and
decoding extracts the `e` field and the optional `p` field exactly as
`ServerPrinter.__init__` does with `event['e']` and `event.get('p')`.

Python exceptions that the code can raise (and, except in
`ServerPrinter.get_events`, never catches) are modelled by `PyError`; a
fallible computation returns `Except PyError α`.
-/

/-- JSON values, the payload universe of the wire protocol. -/
inductive JVal where
  | null
  | bool (b : Bool)
  | num (n : Int)
  | str (s : String)
  | arr (xs : List JVal)
  | obj (fields : List (String × JVal))

/-- Python truthiness (`if not payload`, `if out`, `if break_arg`) restricted
to JSON values: `None`, `False`, `0`, `''`, `[]` and `{}` are falsy. -/
def truthy : JVal → Bool
  | .null => false
  | .bool b => b
  | .num n => n != 0
  | .str s => s ≠ ""
  | .arr xs => !xs.isEmpty
  | .obj fs => !fs.isEmpty

/-- Dictionary lookup, as Python `d.get(k)` on a JSON object. -/
def JVal.lookup (fields : List (String × JVal)) (k : String) : Option JVal :=
  match fields with
  | [] => none
  | (k2, v) :: rest => if k2 = k then some v else JVal.lookup rest k

/-- Python exceptions the embedded code can raise. -/
inductive PyError where
  | typeError (msg : String)
  | indexError
  | keyError
deriving DecidableEq, Repr

/-- `QdbRepl.fmt_msg(event, payload)`: build the envelope sent to the
server.  The Python code tests `if not payload`, so a falsy payload (the
default `None`, but also `''`, `[]`, `{}`, `0`, `False`) produces an
envelope with no `p` field at all. -/
def fmt_msg (event : String) (payload : Option JVal) : JVal :=
  match payload with
  | none => .obj [("e", .str event)]
  | some p =>
    if truthy p then .obj [("e", .str event), ("p", p)]
    else .obj [("e", .str event)]

/-- Whether an envelope carries a `p` field. -/
def hasPayloadField : JVal → Bool
  | .obj fs => (JVal.lookup fs "p").isSome
  | _ => false

/-- Decoding an inbound envelope the way `ServerPrinter.__init__` reads it:
`event['e']` (the tag, a `KeyError` if absent, a `TypeError` if the frame
is not a dict) and `event.get('p')` (the optional payload).  Returns
`none` when the accesses would raise. -/
def decode (v : JVal) : Option (String × Option JVal) :=
  match v with
  | .obj fs =>
    match JVal.lookup fs "e" with
    | some (.str tag) => some (tag, JVal.lookup fs "p")
    | _ => none
  | _ => none

/-- Tokenizer underlying `pySplit`: first argument is the remaining input,
second the characters of the current token in reverse. -/
def splitTokens : List Char → List Char → List String
  | [], cur => if cur.isEmpty then [] else [String.mk cur.reverse]
  | c :: rest, cur =>
    if c = ' ' then
      if cur.isEmpty then splitTokens rest []
      else String.mk cur.reverse :: splitTokens rest []
    else splitTokens rest (c :: cur)

/-- Python `str.split()` on the space-separated REPL argument strings this
program receives: split on runs of spaces and drop empty tokens. -/
def pySplit (s : String) : List String :=
  splitTokens s.data []

example : pySplit "a.py 10 f" = ["a.py", "10", "f"] := by decide
example : pySplit "  a  b " = ["a", "b"] := by decide
example : fmt_msg "step" none = .obj [("e", .str "step")] := rfl
example : decode (fmt_msg "eval" (some (.str ""))) = some ("eval", none) := rfl

/-!
Python rendering of values (`str()` / `repr()`), used by `writeln` and by
the `'%s'` format specifiers in the event handlers.
-/

mutual
/-- Python `repr()` of a parsed-JSON value. -/
def pyRepr : JVal → String
  | .null => "None"
  | .bool true => "True"
  | .bool false => "False"
  | .num n => toString n
  | .str s => "\x27" ++ s ++ "\x27"
  | .arr xs => "[" ++ String.intercalate ", " (pyReprList xs) ++ "]"
  | .obj fs => "\x7b" ++ String.intercalate ", " (pyReprFields fs) ++ "\x7d"

/-- Representations of the elements of a JSON array. -/
def pyReprList : List JVal → List String
  | [] => []
  | x :: xs => pyRepr x :: pyReprList xs

/-- Representations of the entries of a JSON object. -/
def pyReprFields : List (String × JVal) → List String
  | [] => []
  | (k, v) :: fs => ("\x27" ++ k ++ "\x27: " ++ pyRepr v) :: pyReprFields fs
end

/-- Python `str()` of a parsed-JSON value: the identity on strings,
`repr` on everything else. -/
def pyStr : JVal → String
  | .str s => s
  | v => pyRepr v

/-- Python `str()` of an `event.get('p')` result, where the absent case is
`None`. -/
def pyStrOpt : Option JVal → String
  | none => "None"
  | some v => pyStr v

/-!
The command builder: `QdbRepl.parse_break_arg` and the `do_*` methods.

Each `do_*` method is modelled as a function from its argument string to a
`CmdEffect`: the lines it prints locally, the envelopes it sends to the
server, the uncaught exception it raises (if any), and whether it sets
`self._stop`.
-/

/-- Effect of running one REPL command handler. -/
structure CmdEffect where
  printed : List String
  sent : List JVal
  err : Option PyError
  stop : Bool

/-- `QdbRepl.send_command(event, payload)` formats and sends one envelope;
we record the formatted envelope. -/
def send_command (event : String) (payload : Option JVal) : JVal :=
  fmt_msg event payload

/-- `QdbRepl.missing_argument(cmd)`: the locally printed error line. -/
def missing_argument (cmd : String) : String :=
  "*** error: " ++ cmd ++ ": missing argument(s)"

/-- Result of `QdbRepl.parse_break_arg`: what it prints and the value it
returns (or the exception it raises). -/
structure ParseBreakResult where
  printed : List String
  result : Except PyError JVal

/-- `QdbRepl.parse_break_arg(arg)`.  The Python code:
* prints a `Missing line number` error when exactly one token was given,
  but then proceeds anyway;
* evaluates `args[0]` and `args[1]`, an `IndexError` when fewer than two
  tokens are present;
* runs `for pair in zip([func, cond], args[2:]): pair[0] = pair[1]` —
  `zip` yields tuples and tuples are immutable, so the first iteration
  raises `TypeError`; hence any third token makes the call raise, and
  `func`/`cond` can never be set. -/
def parse_break_arg (arg : String) : ParseBreakResult :=
  let args := pySplit arg
  let printed :=
    if args.length = 1 then ["*** error: break_arg: Missing line number"] else []
  match args with
  | [] => ⟨printed, .error .indexError⟩
  | [_] => ⟨printed, .error .indexError⟩
  | file_ :: line :: rest =>
    match rest with
    | [] =>
      ⟨printed, .ok (.obj [("file", .str file_), ("line", .str line),
                           ("func", .null), ("cond", .null)])⟩
    | _ :: _ =>
      ⟨printed, .error (.typeError "tuple does not support item assignment")⟩

/-- `QdbRepl.do_break(arg, temp=False)`.  With a non-empty argument it calls
`self.parse_break_arg(arg, temp)`, but `parse_break_arg` accepts only
`(self, arg)`, so the call itself raises `TypeError` before any parsing
happens. -/
def do_break (arg : String) : CmdEffect :=
  if arg = "" then ⟨[missing_argument "b(reak)"], [], none, false⟩
  else ⟨[], [], some (.typeError "parse_break_arg takes 2 positional arguments but 3 were given"), false⟩

/-- `QdbRepl.do_clear(arg)`: parses via `parse_break_arg` (with the correct
arity) and sends `clear_break` when a truthy payload comes back. -/
def do_clear (arg : String) : CmdEffect :=
  if arg = "" then ⟨[missing_argument "cl(ear)"], [], none, false⟩
  else
    let pr := parse_break_arg arg
    match pr.result with
    | .error e => ⟨pr.printed, [], some e, false⟩
    | .ok v =>
      if truthy v then ⟨pr.printed, [send_command "clear_break" (some v)], none, false⟩
      else ⟨pr.printed, [], none, false⟩

/-- `QdbRepl.do_watch(arg)`: sends `set_watch` with the split tokens. -/
def do_watch (arg : String) : CmdEffect :=
  if arg = "" then ⟨[missing_argument "w(atch)"], [], none, false⟩
  else ⟨[], [send_command "set_watch" (some (.arr ((pySplit arg).map JVal.str)))], none, false⟩

/-- `QdbRepl.do_unwatch(arg)`: sends `clear_watch` with the split tokens. -/
def do_unwatch (arg : String) : CmdEffect :=
  if arg = "" then ⟨[missing_argument "unw(atch)"], [], none, false⟩
  else ⟨[], [send_command "clear_watch" (some (.arr ((pySplit arg).map JVal.str)))], none, false⟩

/-- `QdbRepl.do_list(arg)`.  `args[0]` is the file; the
`for pair in zip([start, end], args[1:]): pair[0] = pair[1]` loop raises
`TypeError` on its first iteration (tuple item assignment) whenever a
second token is present, so `start`/`end` can never be set; with a single
token the loop body never runs and both stay `None`. -/
def do_list (arg : String) : CmdEffect :=
  if arg = "" then ⟨[missing_argument "l(ist)"], [], none, false⟩
  else
    match pySplit arg with
    | [] => ⟨[], [], some .indexError, false⟩
    | file_ :: rest =>
      match rest with
      | [] =>
        ⟨[], [send_command "list" (some (.obj [("file", .str file_),
                                               ("start", .null), ("end", .null)]))],
         none, false⟩
      | _ :: _ => ⟨[], [], some (.typeError "tuple does not support item assignment"), false⟩

/-- `QdbRepl.do_quit(arg)`: `disable`/`soft` for no argument or `soft`,
`disable`/`hard` for `hard`, a local error line otherwise; in every branch
`self._stop = True` is executed afterwards. -/
def do_quit (arg : String) : CmdEffect :=
  if arg = "" ∨ arg = "soft" then
    ⟨[], [send_command "disable" (some (.str "soft"))], none, true⟩
  else if arg = "hard" then
    ⟨[], [send_command "disable" (some (.str "hard"))], none, true⟩
  else
    ⟨["*** error: disable: argument must be \x27soft\x27 or \x27hard\x27"], [], none, true⟩

/-- `QdbRepl.do_step` (and the other no-payload movement commands are
identical up to the tag). -/
def do_step (_arg : String) : CmdEffect :=
  ⟨[], [send_command "step" none], none, false⟩

/-- `QdbRepl.default(line)`: unrecognized input is sent as `eval`. -/
def default_eval (line : String) : CmdEffect :=
  ⟨[], [send_command "eval" (some (.str line))], none, false⟩

/-- `QdbRepl._connect`: the envelopes sent during connection, before the
command loop runs — exactly one `start` command carrying the auth string
(`preloop` defaults a missing auth string to `''`). -/
def connect_sends (auth : String) : List JVal :=
  [send_command "start" (some (.str auth))]

/-- Outbound envelope sequence of a whole session: `_connect` sends first
(from `preloop`), then whatever the command loop sends. -/
def session_sends (auth : String) (loopSends : List JVal) : List JVal :=
  connect_sends auth ++ loopSends

example : do_quit "" = ⟨[], [.obj [("e", .str "disable"), ("p", .str "soft")]], none, true⟩ := rfl
example : (parse_break_arg "a.py 10").result =
    .ok (.obj [("file", .str "a.py"), ("line", .str "10"), ("func", .null), ("cond", .null)]) := rfl

/-!
The event dispatcher: `ServerPrinter`.

`__init__` writes `Tracing...`, then iterates `get_events()`, which yields
`json.loads(self.socket.recv())` until either call raises (socket closed,
end of stream, or a malformed frame), at which point the generator returns
and the loop ends.  Handler lookup is `getattr(self, 'event_' + tag, None)`;
a missing handler routes to `unknown_event`.  Exceptions raised inside a
handler are not caught anywhere and escape the loop.

The inbound stream is modelled as a `List (Option JVal)`: `some v` is a
frame that `recv` + `json.loads` produced, `none` is a frame on which one
of them raised (end of stream or malformed frame); the end of the list is
also the end of the stream.
-/

/-- `ServerPrinter.event_print(payload)`: writes `input: output` when
`output` is truthy.  `payload['output']` is evaluated first (a `KeyError`
when absent, a `TypeError` when the payload is not a dict); the
concatenation `payload['input'] + ': ' + out` raises `TypeError` on
non-strings. -/
def event_print (p : Option JVal) : Except PyError (List String) :=
  match p with
  | some (.obj fs) =>
    match JVal.lookup fs "output" with
    | none => .error .keyError
    | some out =>
      if truthy out then
        match JVal.lookup fs "input" with
        | none => .error .keyError
        | some inp =>
          match inp, out with
          | .str i, .str o => .ok [i ++ ": " ++ o]
          | _, _ => .error (.typeError "cannot concatenate")
      else .ok []
  | _ => .error (.typeError "payload is not subscriptable")

/-- `ServerPrinter.event_list(payload)`: writes the payload verbatim
(`print` applies `str()`). -/
def event_list (p : Option JVal) : Except PyError (List String) :=
  .ok [pyStrOpt p]

/-- `ServerPrinter.event_stack(payload)`: `payload[-1]` (a `TypeError` when
the payload is not a sequence, an `IndexError` when it is empty), then the
last frame is rendered as two lines; `'%d'` requires a number for `line`
and the `'-> ' +` concatenation requires a string `code`. -/
def event_stack (p : Option JVal) : Except PyError (List String) :=
  match p with
  | some (.arr frames) =>
    match frames.getLast? with
    | none => .error .indexError
    | some (.obj fs) =>
      match JVal.lookup fs "file", JVal.lookup fs "line", JVal.lookup fs "code" with
      | some f, some (.num l), some (.str c) =>
        .ok ["> " ++ pyStr f ++ ":" ++ toString l, "-> " ++ c]
      | some _, some _, some _ => .error (.typeError "bad frame field type")
      | _, _, _ => .error .keyError
    | some _ => .error (.typeError "frame is not subscriptable")
  | _ => .error (.typeError "payload is not subscriptable")

/-- One line of `ServerPrinter.event_watchlist`'s loop body. -/
def watch_line (w : JVal) : Except PyError String :=
  match w with
  | .obj fs =>
    match JVal.lookup fs "name", JVal.lookup fs "value" with
    | some n, some v => .ok ("  > " ++ pyStr n ++ ": " ++ pyStr v)
    | _, _ => .error .keyError
  | _ => .error (.typeError "entry is not subscriptable")

/-- The body lines of `event_watchlist`, stopping at the first raising
entry. -/
def watch_lines : List JVal → Except PyError (List String)
  | [] => .ok []
  | w :: ws =>
    match watch_line w with
    | .error e => .error e
    | .ok l =>
      match watch_lines ws with
      | .error e => .error e
      | .ok ls => .ok (l :: ls)

/-- `ServerPrinter.event_watchlist(payload)`: a bracketed block with one
line per watched entry. -/
def event_watchlist (p : Option JVal) : Except PyError (List String) :=
  match p with
  | some (.arr ws) =>
    match watch_lines ws with
    | .error e => .error e
    | .ok ls => .ok ("watchlist: [" :: ls ++ ["]"])
  | _ => .error (.typeError "payload is not iterable")

/-- `ServerPrinter.event_breakpoints(payload)`: explicitly ignored. -/
def event_breakpoints (_p : Option JVal) : Except PyError (List String) :=
  .ok []

/-- `ServerPrinter.event_error(payload)`: renders
`*** error: <type>: <data>`. -/
def event_error (p : Option JVal) : Except PyError (List String) :=
  match p with
  | some (.obj fs) =>
    match JVal.lookup fs "type", JVal.lookup fs "data" with
    | some t, some d => .ok ["*** error: " ++ pyStr t ++ ": " ++ pyStr d]
    | _, _ => .error .keyError
  | _ => .error (.typeError "payload is not subscriptable")

/-- `ServerPrinter.event_return(payload)`. -/
def event_return (p : Option JVal) : Except PyError (List String) :=
  .ok ["--> returning with " ++ pyStrOpt p]

/-- `ServerPrinter.unknown_event(e)`: the diagnostic line written for a tag
with no handler. -/
def unknown_event (e : String) : String :=
  "*** error: " ++ e ++ ": unknown event type"

/-- `getattr(self, 'event_' + tag, None)`: the fixed renderer table. -/
def lookup_handler (tag : String) : Option (Option JVal → Except PyError (List String)) :=
  match tag with
  | "print" => some event_print
  | "list" => some event_list
  | "stack" => some event_stack
  | "watchlist" => some event_watchlist
  | "breakpoints" => some event_breakpoints
  | "error" => some event_error
  | "return" => some event_return
  | _ => none

/-- One iteration of the dispatch loop body on a decoded frame: read
`event['e']`, look up the handler, run it or fall back to
`unknown_event`. -/
def dispatch_one (ev : JVal) : Except PyError (List String) :=
  match ev with
  | .obj fs =>
    match JVal.lookup fs "e" with
    | some (.str tag) =>
      match lookup_handler tag with
      | some h => h (JVal.lookup fs "p")
      | none => .ok [unknown_event tag]
    | some _ => .error (.typeError "cannot concatenate tag")
    | none => .error .keyError
  | _ => .error (.typeError "frame is not subscriptable")

/-- How a `ServerPrinter` run ends: `terminated` when `get_events` returns
(stream end or decode failure) and the `for` loop finishes normally;
`crashed e` when a handler raises `e` and the exception escapes the
loop. -/
inductive RunEnd where
  | terminated
  | crashed (e : PyError)
deriving DecidableEq, Repr

/-- The dispatch loop over the inbound stream: the lines written and how
the run ends.  A `none` frame makes `get_events` return, ending the loop;
a handler error ends the run abnormally with no further writes. -/
def run_events : List (Option JVal) → List String × RunEnd
  | [] => ([], .terminated)
  | none :: _ => ([], .terminated)
  | some ev :: rest =>
    match dispatch_one ev with
    | .error e => ([], .crashed e)
    | .ok lines =>
      let r := run_events rest
      (lines ++ r.1, r.2)

/-- `ServerPrinter.__init__`: writes `Tracing...` to the output sink, then
runs the dispatch loop. -/
def server_printer_run (stream : List (Option JVal)) : List String × RunEnd :=
  let r := run_events stream
  ("Tracing..." :: r.1, r.2)

example : dispatch_one (.obj [("e", .str "foo")]) =
    .ok ["*** error: foo: unknown event type"] := rfl
example : server_printer_run [some (.obj [("e", .str "stack"), ("p", .arr [])])] =
    (["Tracing..."], .crashed .indexError) := rfl
example : event_stack (some (.arr [.obj [("file", .str "a.py"), ("line", .num 3), ("code", .str "foo()")],
                                   .obj [("file", .str "a.py"), ("line", .num 7), ("code", .str "bar()")]])) =
    .ok ["> a.py:7", "-> bar()"] := rfl

/-!
Helper lemmas shared by the claim theorems.
-/

/-- The dispatch loop never looks past a failing frame: the run on
`pre ++ none :: suf` equals the run on `pre ++ [none]`. -/
theorem run_events_cut (pre suf : List (Option JVal)) :
    run_events (pre ++ (none :: suf)) = run_events (pre ++ [none]) := by
  induction pre with
  | nil => rfl
  | cons a pre ih =>
    cases a with
    | none => rfl
    | some ev =>
      simp only [List.cons_append, run_events]
      cases dispatch_one ev with
      | error e => rfl
      | ok lines => simp [ih]

/-!
Claim theorems.
-/

/-- C1 (code bug): the `break` grammar of the spec is not implemented by
the code.  `do_break "a.py 10"` raises `TypeError` before parsing (it
passes `temp` as an extra positional argument to `parse_break_arg`,
which only accepts `(self, arg)`), so no `set_break` command is ever
sent; and `parse_break_arg "a.py 10 f"` — the code path reached through
`do_clear` — raises `TypeError` in the `zip` pairing loop (tuple item
assignment), so `func`/`cond` can never be assigned.  Only the
zero-optional-token parse succeeds, with `func` and `cond` null. -/
theorem C1_break_code_bug :
    do_break "a.py 10"
      = ⟨[], [], some (.typeError "parse_break_arg takes 2 positional arguments but 3 were given"), false⟩
    ∧ do_break "a.py 10 f"
      = ⟨[], [], some (.typeError "parse_break_arg takes 2 positional arguments but 3 were given"), false⟩
    ∧ (parse_break_arg "a.py 10 f").result = .error (.typeError "tuple does not support item assignment")
    ∧ (parse_break_arg "a.py 10 f \x22x>1\x22").result = .error (.typeError "tuple does not support item assignment")
    ∧ (parse_break_arg "a.py 10").result
      = .ok (.obj [("file", .str "a.py"), ("line", .str "10"), ("func", .null), ("cond", .null)]) :=
  ⟨rfl, rfl, rfl, rfl, rfl⟩

/-- C2 counterexample: the codec round-trip fails for a falsy payload.
Encoding the pair `("eval", "")` drops the payload field entirely
(`fmt_msg` tests `if not payload`), so decoding yields an absent payload,
not the original empty string. -/
theorem C2_roundtrip_counterexample :
    decode (fmt_msg "eval" (some (.str ""))) = some ("eval", none)
    ∧ some ("eval", (none : Option JVal)) ≠ some ("eval", some (JVal.str "")) :=
  ⟨rfl, by simp⟩

/-- C2 (amended): decoding the encoding of `(tag, payload)` reproduces the
tag always, and reproduces the payload exactly when the payload is truthy;
a falsy payload (Python `if not payload`) is encoded without a payload
field and decodes to an absent payload. -/
theorem C2_roundtrip_amended (tag : String) (p : JVal) :
    decode (fmt_msg tag (some p)) = some (tag, if truthy p then some p else none) := by
  cases h : truthy p <;> simp [fmt_msg, decode, JVal.lookup, h]

/-- C3 counterexample: `quit bogus` is a user-input error that is reported
locally and sends nothing, but the command loop does *not* continue:
`do_quit` sets `self._stop = True` unconditionally, so `postcmd` stops the
loop. -/
theorem C3_quit_counterexample :
    (do_quit "bogus").printed = ["*** error: disable: argument must be \x27soft\x27 or \x27hard\x27"]
    ∧ (do_quit "bogus").sent = []
    ∧ (do_quit "bogus").stop = true :=
  ⟨rfl, rfl, rfl⟩

/-- C3 (amended): a missing required argument for `break`, `clear`,
`watch`, `unwatch` or `list` is reported locally, nothing is sent, and the
loop continues; a `quit` mode other than `soft`/`hard` is reported locally
and nothing is sent, but the command loop stops (`do_quit` sets `_stop`
unconditionally). -/
theorem C3_user_errors_amended :
    do_break "" = ⟨[missing_argument "b(reak)"], [], none, false⟩
    ∧ do_clear "" = ⟨[missing_argument "cl(ear)"], [], none, false⟩
    ∧ do_watch "" = ⟨[missing_argument "w(atch)"], [], none, false⟩
    ∧ do_unwatch "" = ⟨[missing_argument "unw(atch)"], [], none, false⟩
    ∧ do_list "" = ⟨[missing_argument "l(ist)"], [], none, false⟩
    ∧ ∀ arg, arg ≠ "" → arg ≠ "soft" → arg ≠ "hard" →
        do_quit arg
          = ⟨["*** error: disable: argument must be \x27soft\x27 or \x27hard\x27"], [], none, true⟩ := by
  refine ⟨rfl, rfl, rfl, rfl, rfl, ?_⟩
  intro arg h1 h2 h3
  simp [do_quit, h1, h2, h3]

/-- C3 witness: the amended theorem applied at the invalid quit mode
`bogus`. -/
theorem C3_user_errors_amended_witness :
    do_quit "bogus"
      = ⟨["*** error: disable: argument must be \x27soft\x27 or \x27hard\x27"], [], none, true⟩ :=
  C3_user_errors_amended.2.2.2.2.2 "bogus" (by decide) (by decide) (by decide)

/-- C4 (code bug): `list a.py` does send a `list` command with `start` and
`end` null, but `list a.py 1 20` raises `TypeError` in the `zip` pairing
loop (tuple item assignment) instead of sending `start:"1"`, `end:"20"`:
the pairing can never assign the optional fields. -/
theorem C4_list_code_bug :
    do_list "a.py"
      = ⟨[], [.obj [("e", .str "list"),
                    ("p", .obj [("file", .str "a.py"), ("start", .null), ("end", .null)])]],
         none, false⟩
    ∧ do_list "a.py 1 20"
      = ⟨[], [], some (.typeError "tuple does not support item assignment"), false⟩ :=
  ⟨rfl, rfl⟩

/-- C5: for every command tag, encoding with no payload produces the
envelope with only the `e` field — no payload field at all — and decoding
it yields the tag with an absent payload. -/
theorem C5_no_payload_roundtrip (tag : String) :
    fmt_msg tag none = .obj [("e", .str tag)]
    ∧ hasPayloadField (fmt_msg tag none) = false
    ∧ decode (fmt_msg tag none) = some (tag, none) :=
  ⟨rfl, rfl, rfl⟩

/-- C6: `quit` with no argument and `quit soft` both send `disable` with
payload `soft`; `quit hard` sends `disable` with payload `hard`; any other
mode sends nothing and reports a user error. -/
theorem C6_quit_commands :
    do_quit "" = ⟨[], [.obj [("e", .str "disable"), ("p", .str "soft")]], none, true⟩
    ∧ do_quit "soft" = ⟨[], [.obj [("e", .str "disable"), ("p", .str "soft")]], none, true⟩
    ∧ do_quit "hard" = ⟨[], [.obj [("e", .str "disable"), ("p", .str "hard")]], none, true⟩
    ∧ ∀ arg, arg ≠ "" → arg ≠ "soft" → arg ≠ "hard" →
        (do_quit arg).sent = []
        ∧ (do_quit arg).printed
            = ["*** error: disable: argument must be \x27soft\x27 or \x27hard\x27"] := by
  refine ⟨rfl, rfl, rfl, ?_⟩
  intro arg h1 h2 h3
  simp [do_quit, h1, h2, h3]

/-- C6 witness: the quit theorem applied at the invalid mode `bogus`. -/
theorem C6_quit_commands_witness :
    (do_quit "bogus").sent = []
    ∧ (do_quit "bogus").printed
        = ["*** error: disable: argument must be \x27soft\x27 or \x27hard\x27"] :=
  C6_quit_commands.2.2.2 "bogus" (by decide) (by decide) (by decide)

/-- C7 counterexample: the diagnostic line written for an unregistered tag
is not `"<tag>: unknown event type"` — `unknown_event` prefixes it with
`*** error: `, so for the tag `foo` the line written is
`*** error: foo: unknown event type`. -/
theorem C7_unknown_event_counterexample :
    dispatch_one (.obj [("e", .str "foo")]) = .ok ["*** error: foo: unknown event type"]
    ∧ "*** error: foo: unknown event type" ≠ "foo: unknown event type" :=
  ⟨rfl, by decide⟩

/-- C7 (amended): for every decoded event whose tag has no registered
renderer, the dispatcher writes exactly the single diagnostic line
`*** error: <tag>: unknown event type`, the event is non-fatal, and the
dispatch loop continues with the remaining events. -/
theorem C7_unknown_event_amended (tag : String) (p : JVal) (rest : List (Option JVal))
    (h : lookup_handler tag = none) :
    run_events (some (.obj [("e", .str tag), ("p", p)]) :: rest)
      = (("*** error: " ++ tag ++ ": unknown event type") :: (run_events rest).1,
         (run_events rest).2) := by
  simp [run_events, dispatch_one, JVal.lookup, h, unknown_event]

/-- C7 witness: the amended theorem applied at the unregistered tag `foo`
with an empty rest of the stream. -/
theorem C7_unknown_event_witness :
    run_events [some (.obj [("e", .str "foo"), ("p", .null)])]
      = (["*** error: foo: unknown event type"], .terminated) := by
  rw [C7_unknown_event_amended "foo" .null [] rfl]
  rfl

/-- C8: a failing inbound frame (end of stream or decode failure) is
terminal: the run on any stream extended past the first failing frame
equals the run truncated right after it — so no write ever happens after
the terminal transition, no matter how many frames preceded it — and a
stream whose current frame fails ends in the `terminated` state. -/
theorem C8_terminal_transition (pre suf : List (Option JVal)) :
    server_printer_run (pre ++ (none :: suf)) = server_printer_run (pre ++ [none])
    ∧ (run_events (none :: suf)) = ([], .terminated) := by
  exact ⟨by simp [server_printer_run, run_events_cut], rfl⟩

/-- C9 counterexample: with the default empty auth string the `start`
command is sent with no payload field at all (`fmt_msg` drops falsy
payloads), so its decoded payload is absent rather than the empty auth
string the claim requires. -/
theorem C9_start_counterexample :
    session_sends "" [] = [.obj [("e", .str "start")]]
    ∧ hasPayloadField (.obj [("e", .str "start")]) = false
    ∧ decode (.obj [("e", .str "start")]) = some ("start", none)
    ∧ some ("start", (none : Option JVal)) ≠ some ("start", some (JVal.str "")) :=
  ⟨rfl, rfl, rfl, by simp⟩

/-- C9 (amended): immediately after the connection is established and
before any other command, the client sends a `start` command; its payload
is the auth string whenever that string is non-empty, while the default
empty auth string produces a `start` envelope with no payload field. -/
theorem C9_start_amended (auth : String) (loopSends : List JVal) :
    (session_sends auth loopSends).head? = some (fmt_msg "start" (some (.str auth)))
    ∧ (auth ≠ "" → decode (fmt_msg "start" (some (.str auth)))
        = some ("start", some (.str auth)))
    ∧ (auth = "" → fmt_msg "start" (some (.str auth)) = .obj [("e", .str "start")]) := by
  refine ⟨rfl, ?_, ?_⟩
  · intro h
    simp [fmt_msg, truthy, decode, JVal.lookup, h]
  · intro h
    subst h
    rfl

/-- C9 witness: the amended theorem applied at the non-empty auth string
`secret` with an empty command loop. -/
theorem C9_start_witness :
    decode (fmt_msg "start" (some (.str "secret"))) = some ("start", some (.str "secret")) :=
  (C9_start_amended "secret" []).2.1 (by decide)

/-- C10: rendering a stack event is only well-defined on a non-empty frame
list.  `event_stack` indexes `payload[-1]` without a guard, so an empty
payload raises `IndexError`; since only socket-receive/JSON-decode
failures are caught (inside `get_events`), the exception escapes the
dispatch loop — the event is neither rendered nor skipped and no later
frame is processed — whereas a non-empty payload renders the last
frame. -/
theorem C10_stack_empty_escapes (rest : List (Option JVal)) :
    event_stack (some (.arr [])) = .error .indexError
    ∧ server_printer_run (some (.obj [("e", .str "stack"), ("p", .arr [])]) :: rest)
        = (["Tracing..."], .crashed .indexError)
    ∧ event_stack (some (.arr [.obj [("file", .str "a.py"), ("line", .num 3), ("code", .str "foo()")],
                               .obj [("file", .str "a.py"), ("line", .num 7), ("code", .str "bar()")]]))
        = .ok ["> a.py:7", "-> bar()"] :=
  ⟨rfl, rfl, rfl⟩
